import Mathlib

/-!
Verification of the credit ledger and consumption engine of the
vegacareerai repository.

The authoritative ledger logic lives in the PL/pgSQL functions of
`src/database/functions.sql` (`consume_credits`, `add_credits`,
`get_user_credit_balance`, `calculate_credits_required`,
`check_rate_limit`) over the tables of `src/database/schema.sql`.
The JavaScript `CreditsService` is a placeholder; the rate-limit
formula with hourly and daily ceilings appears in the design document
(`RateLimitService.checkRateLimit`).

Modelling conventions:
- SQL `DECIMAL` values are rationals (`Rat`).  A PL/pgSQL assignment to a
  variable declared `DECIMAL(p,s)` casts the value, rounding half away
  from zero to `s` fractional digits; `pgRoundScale` models that cast.
  Numeric division is modelled as exact rational division followed by the
  cast imposed by the target variable's declared scale.
- Timestamps are integers (seconds); `INTERVAL '1 day'` is `oneDay`.
- The single-account ledger state is `Ledger`: the `credit_accounts` row
  plus the `credit_transactions` and `llm_usage` rows of that account in
  creation order (new rows appended at the right).
- The schema's CHECK constraints (`balance >= 0`,
  `0 <= daily_free_credits_used <= 10`, non-negative lifetime counters)
  hold for every stored row; theorems carry them as hypotheses where the
  functions rely on them.  On the stated domains no UPDATE can violate a
  CHECK, so the pure model coincides with the database behaviour.
- `credit_transactions.stripe_payment_intent_id` and
  `llm_usage.request_id` carry no UNIQUE constraint in `schema.sql`, so
  the inner `EXCEPTION` blocks of `consume_credits` and `add_credits`
  cannot fire on the domains considered and are not modelled as separate
  outcomes.
-/

/-- One day, in seconds: the SQL `INTERVAL '1 day'`. -/
def oneDay : Int := 86400

/-- Round half away from zero to an integer: the rounding used by a
PostgreSQL `numeric` cast that reduces scale. -/
def pgRoundInt (q : ℚ) : Int :=
  if q < 0 then -(Int.floor (-q + 1/2)) else Int.floor (q + 1/2)

/-- Cast to `DECIMAL(_, s)`: round half away from zero at `s` fractional
digits. -/
def pgRoundScale (s : Nat) (q : ℚ) : ℚ :=
  (pgRoundInt (q * (10 : ℚ) ^ s) : ℚ) / (10 : ℚ) ^ s

/-- A `credit_accounts` row (the columns the functions read or write). -/
structure CreditAccount where
  balance : ℚ
  lifetime_purchased : ℚ
  lifetime_consumed : ℚ
  daily_free_credits_used : Int
  daily_free_credits_reset_at : Int
deriving Repr, DecidableEq

/-- The `transaction_type` values allowed by the schema CHECK. -/
inductive TxType where
  | purchase
  | consumption
  | daily_free
  | refund
  | bonus
deriving Repr, DecidableEq

/-- A `credit_transactions` row (the columns the functions write). -/
structure Transaction where
  transaction_type : TxType
  amount : ℚ
  balance_after : ℚ
  stripe_payment_intent_id : Option String
deriving Repr, DecidableEq

/-- The fields `consume_credits` reads from its `p_usage_data` JSONB
argument; absent keys are `none`. -/
structure UsageData where
  provider : Option String
  model : Option String
  prompt_tokens : Option Int
  completion_tokens : Option Int
  total_tokens : Option Int
  request_id : Option String
  status : Option String
deriving Repr, DecidableEq

/-- An `llm_usage` row (the columns `consume_credits` writes). -/
structure LlmUsageRow where
  provider : Option String
  model : Option String
  prompt_tokens : Int
  completion_tokens : Int
  total_tokens : Int
  credits_consumed : ℚ
  request_id : Option String
  status : String
deriving Repr, DecidableEq

/-- The durable state of one credit account: the account row and its
transaction and usage logs in creation order. -/
structure Ledger where
  acct : CreditAccount
  txs : List Transaction
  usages : List LlmUsageRow
deriving Repr, DecidableEq

/-- A freshly provisioned account (schema defaults: `balance 0.00`,
`daily_free_credits_used 0`, reset timestamp = creation time 0) with
empty logs. -/
def ledger0 : Ledger :=
  { acct := { balance := 0, lifetime_purchased := 0, lifetime_consumed := 0,
              daily_free_credits_used := 0, daily_free_credits_reset_at := 0 },
    txs := [], usages := [] }

/-- The lazy daily-free reset block shared verbatim by
`get_user_credit_balance` (functions.sql lines 82-92) and
`consume_credits` (lines 176-184): when
`daily_free_credits_reset_at < NOW() - INTERVAL '1 day'`, zero the
used counter and restart the window at `NOW()`. -/
def maybe_reset_daily (now : Int) (a : CreditAccount) : CreditAccount :=
  if a.daily_free_credits_reset_at < now - oneDay then
    { a with daily_free_credits_used := 0, daily_free_credits_reset_at := now }
  else a

/-- Result JSON of `get_user_credit_balance`. -/
structure BalanceResult where
  success : Bool
  balance : ℚ
  daily_free_credits_remaining : Int
deriving Repr, DecidableEq

/-- Function 3 of functions.sql, `get_user_credit_balance`: perform the
lazy reset if due, then report balance and
`GREATEST(0, 10 - daily_free_credits_used)`.  The reset UPDATE persists,
so the ledger comes back possibly changed. -/
def get_user_credit_balance (now : Int) (L : Ledger) : Ledger × BalanceResult :=
  let a := maybe_reset_daily now L.acct
  ({ L with acct := a },
   { success := true, balance := a.balance,
     daily_free_credits_remaining := max 0 (10 - a.daily_free_credits_used) })

/-- An `llm_provider_configs` row (the pricing columns
`calculate_credits_required` reads). -/
structure ProviderConfig where
  credits_per_1k_tokens : ℚ
  input_cost_per_1m_tokens : ℚ
  output_cost_per_1m_tokens : ℚ
deriving Repr, DecidableEq

/-- The schema CHECK constraints on an `llm_provider_configs` row
(schema.sql lines 109-111): `credits_per_1k_tokens > 0` and each
per-token cost merely `>= 0`. -/
def providerConfigCheck (cfg : ProviderConfig) : Prop :=
  0 < cfg.credits_per_1k_tokens ∧
    0 ≤ cfg.input_cost_per_1m_tokens ∧ 0 ≤ cfg.output_cost_per_1m_tokens

instance (cfg : ProviderConfig) : Decidable (providerConfigCheck cfg) := by
  unfold providerConfigCheck; infer_instance

/-- The denominator of the input/output weighting step of
`calculate_credits_required` (functions.sql lines 133-134). -/
def ratioDenominator (cfg : ProviderConfig) : ℚ :=
  cfg.input_cost_per_1m_tokens + cfg.output_cost_per_1m_tokens

/-- Function 4 of functions.sql, `calculate_credits_required`, for a found
active config row.  The declared variable types force intermediate casts:
`v_input_ratio`, `v_output_ratio` are `DECIMAL(10,6)`;
`v_weighted_tokens` and `v_credits_required` are `DECIMAL(10,2)` — so the
credit amount is rounded to the nearest cent BEFORE the final
`CEIL(x * 100) / 100`, which is then a no-op.  (`v_total_tokens` is
computed by the source but never used.) -/
def calculate_credits_required (cfg : ProviderConfig)
    (prompt_tokens completion_tokens : Int) : ℚ :=
  let inRatio := pgRoundScale 6 (cfg.input_cost_per_1m_tokens / ratioDenominator cfg)
  let outRatio := pgRoundScale 6 (1 - inRatio)
  let weighted := pgRoundScale 2
    ((prompt_tokens : ℚ) * inRatio + (completion_tokens : ℚ) * outRatio)
  let credits := pgRoundScale 2 (weighted / 1000 * cfg.credits_per_1k_tokens)
  (Int.ceil (credits * 100) : ℚ) / 100

/-- The cost formula as the specification states it (spec.md section 4.2):
exact rational weighting and a genuine ceiling to the next cent, with no
intermediate rounding.  Written from the spec's words, for comparison
with `calculate_credits_required`. -/
def estimate_spec (cfg : ProviderConfig)
    (prompt_tokens completion_tokens : Int) : ℚ :=
  let inRatio := cfg.input_cost_per_1m_tokens / ratioDenominator cfg
  let outRatio := 1 - inRatio
  let weighted := (prompt_tokens : ℚ) * inRatio + (completion_tokens : ℚ) * outRatio
  (Int.ceil (weighted / 1000 * cfg.credits_per_1k_tokens * 100) : ℚ) / 100

/-- Result JSON of `consume_credits`. -/
structure ConsumeResult where
  success : Bool
  new_balance : ℚ
  used_free_credit : Bool
  daily_free_remaining : Int
deriving Repr, DecidableEq

/-- Build the `llm_usage` row inserted by `consume_credits`
(functions.sql lines 236-264): token counts default to 0 via `COALESCE`,
`status` defaults to 'completed', `credits_consumed` is the full
`p_amount`. -/
def mkUsageRow (amount : ℚ) (u : UsageData) : LlmUsageRow :=
  { provider := u.provider, model := u.model,
    prompt_tokens := u.prompt_tokens.getD 0,
    completion_tokens := u.completion_tokens.getD 0,
    total_tokens := u.total_tokens.getD 0,
    credits_consumed := amount,
    request_id := u.request_id,
    status := u.status.getD "completed" }

/-- Function 5 of functions.sql, `consume_credits`: after the lazy reset,
a free credit is used only when `balance < p_amount` and
`10 - daily_free_credits_used > 0`; a single free unit then absorbs the
whole amount (one `daily_free` transaction with positive `amount`,
balance untouched).  When `balance >= p_amount` the whole amount is
debited from balance (one `consumption` transaction with negated
`amount`).  Otherwise the call fails with "Insufficient credits" — the
reset, already executed, persists.  Exactly one `llm_usage` row is
inserted when usage data is supplied, with no de-duplication on
`request_id`. -/
def consume_credits (now : Int) (amount : ℚ) (udata : Option UsageData)
    (L : Ledger) : Ledger × ConsumeResult :=
  let a := maybe_reset_daily now L.acct
  let remaining := 10 - a.daily_free_credits_used
  if a.balance < amount ∧ remaining > 0 then
    let a' := { a with daily_free_credits_used := a.daily_free_credits_used + 1,
                       lifetime_consumed := a.lifetime_consumed + amount }
    let tx : Transaction :=
      { transaction_type := .daily_free, amount := amount,
        balance_after := a.balance, stripe_payment_intent_id := none }
    let usages' := match udata with
      | some u => L.usages ++ [mkUsageRow amount u]
      | none => L.usages
    ({ acct := a', txs := L.txs ++ [tx], usages := usages' },
     { success := true, new_balance := a.balance, used_free_credit := true,
       daily_free_remaining := max 0 (remaining - 1) })
  else if a.balance < amount then
    ({ L with acct := a },
     { success := false, new_balance := a.balance, used_free_credit := false,
       daily_free_remaining := remaining })
  else
    let nb := a.balance - amount
    let a' := { a with balance := nb,
                       lifetime_consumed := a.lifetime_consumed + amount }
    let tx : Transaction :=
      { transaction_type := .consumption, amount := -amount,
        balance_after := nb, stripe_payment_intent_id := none }
    let usages' := match udata with
      | some u => L.usages ++ [mkUsageRow amount u]
      | none => L.usages
    ({ acct := a', txs := L.txs ++ [tx], usages := usages' },
     { success := true, new_balance := nb, used_free_credit := false,
       daily_free_remaining := max 0 remaining })

/-- Result JSON of `add_credits`. -/
structure AddResult where
  success : Bool
  new_balance : ℚ
  amount_added : ℚ
deriving Repr, DecidableEq

/-- Function 6 of functions.sql, `add_credits`: unconditionally add the
amount to balance and append one `purchase` transaction carrying the
caller's `stripe_payment_intent_id` reference.  No lookup for an earlier
transaction with the same reference is performed, and the schema puts no
UNIQUE constraint on that column. -/
def add_credits (amount : ℚ) (ref : Option String) (L : Ledger) :
    Ledger × AddResult :=
  let nb := L.acct.balance + amount
  let a' := { L.acct with balance := nb,
                          lifetime_purchased := L.acct.lifetime_purchased + amount }
  let tx : Transaction :=
    { transaction_type := .purchase, amount := amount,
      balance_after := nb, stripe_payment_intent_id := ref }
  ({ acct := a', txs := L.txs ++ [tx], usages := L.usages },
   { success := true, new_balance := nb, amount_added := amount })

/-- One ledger operation: a settlement debit or a grant. -/
inductive LedgerOp where
  | consume (now : Int) (amount : ℚ) (udata : Option UsageData)
  | grant (amount : ℚ) (ref : Option String)
deriving Repr, DecidableEq

/-- The amount an operation carries. -/
def LedgerOp.amount : LedgerOp → ℚ
  | .consume _ a _ => a
  | .grant a _ => a

/-- Apply one operation to the ledger, keeping the updated state. -/
def applyOp (L : Ledger) (op : LedgerOp) : Ledger :=
  match op with
  | .consume now a u => (consume_credits now a u L).1
  | .grant a r => (add_credits a r L).1

/-- Apply a sequence of operations in order. -/
def applyOps (L : Ledger) (ops : List LedgerOp) : Ledger :=
  ops.foldl applyOp L

/-- Replay an account's transaction log: sum the signed `amount` fields of
all transactions except those of type `daily_free`. -/
def replaySum (txs : List Transaction) : ℚ :=
  (txs.filter (fun t => t.transaction_type ≠ TxType.daily_free)).map
    (fun t => t.amount) |>.sum

/-- Hourly limit chosen by function 7 of functions.sql,
`check_rate_limit`: 100 for a registered user, 10 for an anonymous
(IP-keyed) caller. -/
def hourlyLimitFor (isUser : Bool) : Int :=
  if isUser then 100 else 10

/-- Function 7 of functions.sql, `check_rate_limit`: allowed unless the
current hourly-window count has reached the hourly limit.  No daily
counter exists in this function. -/
def check_rate_limit (isUser : Bool) (current_count : Int) : Bool :=
  if current_count ≥ hourlyLimitFor isUser then false else true

/-- A tier's ceilings in the design document's `RateLimitService`:
`daily = none` models the literal 'unlimited'. -/
structure TierLimits where
  hourly : Int
  daily : Option Int
deriving Repr, DecidableEq

/-- Current usage counters for one identity: the hourly-window and
daily-window request counts. -/
structure WindowUsage where
  hourly : Int
  daily : Int
deriving Repr, DecidableEq

/-- The design document's `RateLimitService.checkRateLimit` allowed
computation: `currentUsage.hourly < limits.hourly && (limits.daily ===
'unlimited' || currentUsage.daily < limits.daily)`. -/
def checkRateLimit (limits : TierLimits) (usage : WindowUsage) : Bool :=
  decide (usage.hourly < limits.hourly) &&
    (match limits.daily with
     | none => true
     | some d => decide (usage.daily < d))

/-! ## Concrete fixtures used by witnesses and counterexamples -/

/-- An account with 100 purchased credits, no free allowance used, window
started at time 0. -/
def acct100 : CreditAccount :=
  { balance := 100, lifetime_purchased := 100, lifetime_consumed := 0,
    daily_free_credits_used := 0, daily_free_credits_reset_at := 0 }

/-- Ledger holding `acct100` with empty logs. -/
def ledger100 : Ledger := { acct := acct100, txs := [], usages := [] }

/-- An account with balance 10, no free allowance used. -/
def acct10 : CreditAccount :=
  { balance := 10, lifetime_purchased := 10, lifetime_consumed := 0,
    daily_free_credits_used := 0, daily_free_credits_reset_at := 0 }

/-- Ledger holding `acct10` with empty logs. -/
def ledger10 : Ledger := { acct := acct10, txs := [], usages := [] }

/-- An account with balance 5 and half the free allowance used. -/
def acct5half : CreditAccount :=
  { balance := 5, lifetime_purchased := 5, lifetime_consumed := 0,
    daily_free_credits_used := 5, daily_free_credits_reset_at := 0 }

/-- Ledger holding `acct5half` with empty logs. -/
def ledger5half : Ledger := { acct := acct5half, txs := [], usages := [] }

/-- Usage data carrying the caller-supplied request id "req1". -/
def usageReq1 : UsageData :=
  { provider := some "claude", model := some "claude-3-haiku",
    prompt_tokens := some 10, completion_tokens := some 5,
    total_tokens := some 15, request_id := some "req1", status := none }

/-- A pricing row with equal input and output costs and one credit per 1k
tokens; satisfies every schema CHECK. -/
def cfgUnit : ProviderConfig :=
  { credits_per_1k_tokens := 1, input_cost_per_1m_tokens := 1,
    output_cost_per_1m_tokens := 1 }

/-- The seeded claude-3-sonnet pricing row of schema.sql. -/
def cfgClaudeSonnet : ProviderConfig :=
  { credits_per_1k_tokens := 1/10, input_cost_per_1m_tokens := 3,
    output_cost_per_1m_tokens := 15 }

/-! ## Helper lemmas -/

lemma maybe_reset_daily_balance (now : Int) (a : CreditAccount) :
    (maybe_reset_daily now a).balance = a.balance := by
  unfold maybe_reset_daily; split_ifs <;> rfl

lemma maybe_reset_daily_of_not_due (now : Int) (a : CreditAccount)
    (h : ¬ a.daily_free_credits_reset_at < now - oneDay) :
    maybe_reset_daily now a = a := by
  unfold maybe_reset_daily; simp [h]

lemma applyOp_balance_nonneg (L : Ledger) (op : LedgerOp)
    (ha : 0 ≤ op.amount) (hb : 0 ≤ L.acct.balance) :
    0 ≤ (applyOp L op).acct.balance := by
  cases op with
  | consume now a u =>
    have hbal := maybe_reset_daily_balance now L.acct
    simp only [applyOp, consume_credits]
    split_ifs with h1 h2
    · simpa [hbal] using hb
    · simpa [hbal] using hb
    · push_neg at h2
      simp only []
      rw [hbal] at h2 ⊢
      linarith
  | grant a r =>
    simp only [applyOp, add_credits, LedgerOp.amount] at ha ⊢
    linarith

lemma applyOps_balance_nonneg (ops : List LedgerOp) :
    ∀ L : Ledger, (∀ op ∈ ops, 0 ≤ op.amount) → 0 ≤ L.acct.balance →
      0 ≤ (applyOps L ops).acct.balance := by
  induction ops with
  | nil => intro L _ hb; simpa [applyOps] using hb
  | cons op rest ih =>
    intro L hops hb
    have h1 : 0 ≤ (applyOp L op).acct.balance :=
      applyOp_balance_nonneg L op (hops op (List.mem_cons_self op rest)) hb
    have := ih (applyOp L op) (fun o ho => hops o (List.mem_cons_of_mem op ho)) h1
    simpa [applyOps, List.foldl_cons] using this

lemma replaySum_append (xs ys : List Transaction) :
    replaySum (xs ++ ys) = replaySum xs + replaySum ys := by
  simp [replaySum, List.filter_append]

lemma replaySum_daily_free (tx : Transaction)
    (h : tx.transaction_type = TxType.daily_free) : replaySum [tx] = 0 := by
  simp [replaySum, List.filter, h]

lemma replaySum_not_daily_free (tx : Transaction)
    (h : tx.transaction_type ≠ TxType.daily_free) : replaySum [tx] = tx.amount := by
  simp [replaySum, List.filter, h]

lemma applyOp_replay (L : Ledger) (op : LedgerOp)
    (h : replaySum L.txs = L.acct.balance) :
    replaySum (applyOp L op).txs = (applyOp L op).acct.balance := by
  cases op with
  | consume now a u =>
    have hbal := maybe_reset_daily_balance now L.acct
    simp only [applyOp, consume_credits]
    split_ifs with h1 h2
    · simp only []
      rw [replaySum_append, replaySum_daily_free _ rfl, hbal, h]
      ring
    · simpa [hbal] using h
    · simp only []
      rw [replaySum_append, replaySum_not_daily_free _ (by simp), hbal, h]
      ring
  | grant a r =>
    simp only [applyOp, add_credits]
    rw [replaySum_append, replaySum_not_daily_free _ (by simp), h]

lemma applyOps_replay (ops : List LedgerOp) :
    ∀ L : Ledger, replaySum L.txs = L.acct.balance →
      replaySum (applyOps L ops).txs = (applyOps L ops).acct.balance := by
  induction ops with
  | nil => intro L h; simpa [applyOps] using h
  | cons op rest ih =>
    intro L h
    have := ih (applyOp L op) (applyOp_replay L op h)
    simpa [applyOps, List.foldl_cons] using this

/-! ## Claim theorems -/

/-- C2: for every sequence of debit (`consume_credits`) and grant
(`add_credits`) operations with non-negative amounts starting from an
account with non-negative balance, the balance stays non-negative after
every operation (every prefix of a sequence is itself a sequence), and
error returns leave the balance unchanged, hence non-negative. -/
theorem balance_never_negative (ops : List LedgerOp) (L : Ledger)
    (hops : ∀ op ∈ ops, 0 ≤ op.amount) (hb : 0 ≤ L.acct.balance) :
    0 ≤ (applyOps L ops).acct.balance :=
  applyOps_balance_nonneg ops L hops hb

/-- Witness for C2: a grant of 5 followed by a paid debit of 3 and a
failing debit of 100 from a fresh account keeps the balance
non-negative. -/
theorem balance_never_negative_witness :
    0 ≤ (applyOps ledger0
          [LedgerOp.grant 5 none, LedgerOp.consume 0 3 none,
           LedgerOp.consume 0 100 none]).acct.balance :=
  balance_never_negative _ _
    (by intro op h; fin_cases h <;> norm_num [LedgerOp.amount])
    (by norm_num [ledger0])

/-- C3: replaying the transaction log of an account in creation order and
summing the signed `amount` fields, excluding `daily_free` transactions,
reproduces the final balance exactly, for every sequence of grant and
settle operations from the freshly provisioned account. -/
theorem transaction_replay_reproduces_balance (ops : List LedgerOp) :
    replaySum (applyOps ledger0 ops).txs = (applyOps ledger0 ops).acct.balance :=
  applyOps_replay ops ledger0 (by norm_num [ledger0, replaySum])

/-- C9: when the reset is not due, a settlement against an account whose
balance is strictly below the requested amount but with at least one
daily free credit remaining succeeds with balance unchanged and
`daily_free_credits_used` incremented by exactly one, however large the
amount; the paid balance is debited only when it covers the amount, and
then the whole amount comes from balance with the free counter
unchanged. -/
theorem consume_credits_free_credit_semantics (L : Ledger) (now : Int) (a : ℚ)
    (u : Option UsageData)
    (hres : ¬ L.acct.daily_free_credits_reset_at < now - oneDay) :
    (L.acct.balance < a → 0 < 10 - L.acct.daily_free_credits_used →
      ((consume_credits now a u L).2.success = true ∧
       (consume_credits now a u L).1.acct.balance = L.acct.balance ∧
       (consume_credits now a u L).1.acct.daily_free_credits_used =
         L.acct.daily_free_credits_used + 1)) ∧
    (a ≤ L.acct.balance →
      ((consume_credits now a u L).2.success = true ∧
       (consume_credits now a u L).1.acct.balance = L.acct.balance - a ∧
       (consume_credits now a u L).1.acct.daily_free_credits_used =
         L.acct.daily_free_credits_used)) := by
  have hmr := maybe_reset_daily_of_not_due now L.acct hres
  constructor
  · intro h1 h2
    simp only [consume_credits, hmr]
    split_ifs with hA
    all_goals first
      | exact absurd ⟨h1, h2⟩ hA
      | simp
  · intro h
    have hnl : ¬ L.acct.balance < a := not_lt.mpr h
    simp only [consume_credits, hmr]
    split_ifs with hA
    all_goals first
      | exact absurd hA.1 hnl
      | simp

/-- Witness for C9: a debit of 7 against `ledger5half` (balance 5, five
free credits remaining) succeeds, leaves balance 5 untouched and bumps
the used counter from 5 to 6. -/
theorem consume_credits_free_credit_semantics_witness :
    (consume_credits 0 7 none ledger5half).2.success = true ∧
    (consume_credits 0 7 none ledger5half).1.acct.balance =
      ledger5half.acct.balance ∧
    (consume_credits 0 7 none ledger5half).1.acct.daily_free_credits_used =
      ledger5half.acct.daily_free_credits_used + 1 :=
  (consume_credits_free_credit_semantics ledger5half 0 7 none (by decide)).1
    (by norm_num [ledger5half, acct5half]) (by decide)

/-- C1 (amended): a successful settlement writes exactly one Transaction.
On the free path (balance below the amount and free allowance not
exhausted) that single transaction has type `daily_free` and positive
amount; on the paid path (balance covers the amount) it has type
`consumption` and negated amount.  The debit is never split into a
free-tier portion and a paid portion, and two Transactions are never
written; a failed settlement writes none. -/
theorem consume_credits_single_transaction (L : Ledger) (now : Int) (c : ℚ)
    (u : Option UsageData)
    (hres : ¬ L.acct.daily_free_credits_reset_at < now - oneDay) :
    ((consume_credits now c u L).2.success = true →
      ((L.acct.balance < c ∧ 0 < 10 - L.acct.daily_free_credits_used ∧
        (consume_credits now c u L).1.txs =
          L.txs ++ [{ transaction_type := TxType.daily_free, amount := c,
                      balance_after := L.acct.balance,
                      stripe_payment_intent_id := none }]) ∨
       (c ≤ L.acct.balance ∧
        (consume_credits now c u L).1.txs =
          L.txs ++ [{ transaction_type := TxType.consumption, amount := -c,
                      balance_after := L.acct.balance - c,
                      stripe_payment_intent_id := none }]))) ∧
    ((consume_credits now c u L).2.success = false →
      (consume_credits now c u L).1.txs = L.txs) := by
  have hmr := maybe_reset_daily_of_not_due now L.acct hres
  simp only [consume_credits, hmr]
  split_ifs with hA hB
  · exact ⟨fun _ => Or.inl ⟨hA.1, hA.2, by simp⟩, by simp⟩
  · exact ⟨by simp, fun _ => by simp⟩
  · exact ⟨fun _ => Or.inr ⟨not_lt.mp hB, by simp⟩, by simp⟩

/-- Witness for C1 (amended): the settlement of 3 credits against
`ledger100` writes exactly one transaction of one of the two shapes. -/
theorem consume_credits_single_transaction_witness :
    (ledger100.acct.balance < 3 ∧
      0 < 10 - ledger100.acct.daily_free_credits_used ∧
      (consume_credits 0 3 none ledger100).1.txs =
        ledger100.txs ++ [{ transaction_type := TxType.daily_free, amount := 3,
                            balance_after := ledger100.acct.balance,
                            stripe_payment_intent_id := none }]) ∨
    (3 ≤ ledger100.acct.balance ∧
      (consume_credits 0 3 none ledger100).1.txs =
        ledger100.txs ++ [{ transaction_type := TxType.consumption, amount := -3,
                            balance_after := ledger100.acct.balance - 3,
                            stripe_payment_intent_id := none }]) :=
  (consume_credits_single_transaction ledger100 0 3 none (by decide)).1
    (by norm_num [consume_credits, maybe_reset_daily, ledger100, acct100, oneDay])

/-- Counterexample to C1 as stated: settling cost 3 on an account with
balance 100 and full free allowance (free remaining f = 10, so the claim
requires min(3, 10) = 3 credit-equivalents drawn from the free allowance
first, leaving the balance at 100 and writing a `daily_free`
transaction).  The code instead debits the whole 3 from balance
(97 ≠ 100), leaves the free counter at 0 and writes no `daily_free`
transaction. -/
theorem consume_credits_prefers_paid_balance_cex :
    (consume_credits 0 3 none ledger100).1.acct.balance = 97 ∧
    (consume_credits 0 3 none ledger100).1.acct.daily_free_credits_used = 0 ∧
    ((consume_credits 0 3 none ledger100).1.txs.filter
        (fun t => t.transaction_type = TxType.daily_free)).length = 0 ∧
    min (3 : ℚ) (10 - 0) = 3 ∧ (97 : ℚ) ≠ 100 := by
  refine ⟨?_, ?_, ?_, by norm_num, by norm_num⟩
  · norm_num [consume_credits, maybe_reset_daily, ledger100, acct100, oneDay]
  · norm_num [consume_credits, maybe_reset_daily, ledger100, acct100, oneDay]
  · norm_num [consume_credits, maybe_reset_daily, ledger100, acct100, oneDay,
      List.filter]
    rfl

/-! ## Further helper lemmas -/

lemma consume_credits_paid_state (L : Ledger) (now : Int) (a : ℚ)
    (u : Option UsageData)
    (hres : ¬ L.acct.daily_free_credits_reset_at < now - oneDay)
    (h : a ≤ L.acct.balance) :
    (consume_credits now a u L).1 =
      { acct :=
          { L.acct with
              balance := L.acct.balance - a
              lifetime_consumed := L.acct.lifetime_consumed + a }
        txs := L.txs ++
          [{ transaction_type := TxType.consumption
             amount := -a
             balance_after := L.acct.balance - a
             stripe_payment_intent_id := none }]
        usages :=
          (match u with
           | some ud => L.usages ++ [mkUsageRow a ud]
           | none => L.usages) } := by
  have hmr := maybe_reset_daily_of_not_due now L.acct hres
  have hnl : ¬ L.acct.balance < a := not_lt.mpr h
  simp only [consume_credits, hmr]
  split_ifs with hA
  all_goals first
    | exact absurd hA.1 hnl
    | rfl

lemma maybe_reset_daily_used_cases (now : Int) (a : CreditAccount) :
    (maybe_reset_daily now a).daily_free_credits_used = 0 ∨
      (maybe_reset_daily now a).daily_free_credits_used =
        a.daily_free_credits_used := by
  unfold maybe_reset_daily; split_ifs <;> simp

lemma consume_credits_used_bounds (L : Ledger) (now : Int) (a : ℚ)
    (u : Option UsageData)
    (h0 : 0 ≤ L.acct.daily_free_credits_used)
    (h10 : L.acct.daily_free_credits_used ≤ 10) :
    0 ≤ (consume_credits now a u L).1.acct.daily_free_credits_used ∧
      (consume_credits now a u L).1.acct.daily_free_credits_used ≤ 10 := by
  have hc := maybe_reset_daily_used_cases now L.acct
  simp only [consume_credits]
  split_ifs with hA hB
  · have h2 := hA.2
    simp only []
    omega
  · simp only []
    omega
  · simp only []
    omega

lemma maybe_reset_daily_reset_at_of_due (a : CreditAccount) (now : Int)
    (h : a.daily_free_credits_reset_at < now - oneDay) :
    (maybe_reset_daily now a).daily_free_credits_reset_at = now := by
  unfold maybe_reset_daily; rw [if_pos h]

lemma maybe_reset_daily_at_most_once (a : CreditAccount) (now now2 : Int)
    (h : a.daily_free_credits_reset_at < now - oneDay) (h2 : now2 ≤ now + oneDay) :
    maybe_reset_daily now2 (maybe_reset_daily now a) = maybe_reset_daily now a := by
  have hra := maybe_reset_daily_reset_at_of_due a now h
  rw [maybe_reset_daily]
  rw [if_neg (by rw [hra]; omega)]

/-- C4 (amended): settlement is NOT idempotent per request reference.
`consume_credits` performs no de-duplication on the caller-supplied
request id and `llm_usage.request_id` carries no uniqueness constraint,
so a retried call with the same request id performs a second debit and
writes a second Transaction and a second Usage Record. -/
theorem settlement_not_idempotent (L : Ledger) (now : Int) (a : ℚ)
    (u : UsageData)
    (hres : ¬ L.acct.daily_free_credits_reset_at < now - oneDay)
    (ha : 0 ≤ a) (hb : a + a ≤ L.acct.balance) :
    (consume_credits now a (some u)
        (consume_credits now a (some u) L).1).1.acct.balance
      = L.acct.balance - a - a ∧
    (consume_credits now a (some u)
        (consume_credits now a (some u) L).1).1.txs.length
      = L.txs.length + 2 ∧
    (consume_credits now a (some u)
        (consume_credits now a (some u) L).1).1.usages
      = L.usages ++ [mkUsageRow a u, mkUsageRow a u] := by
  have h1 : a ≤ L.acct.balance := by linarith
  have e1 := consume_credits_paid_state L now a (some u) hres h1
  have hres2 : ¬ (consume_credits now a (some u) L).1.acct.daily_free_credits_reset_at
      < now - oneDay := by rw [e1]; exact hres
  have h2 : a ≤ (consume_credits now a (some u) L).1.acct.balance := by
    rw [e1]; show a ≤ L.acct.balance - a; linarith
  have e2 := consume_credits_paid_state _ now a (some u) hres2 h2
  rw [e2, e1]
  refine ⟨by ring, by simp, by simp⟩

/-- Witness for C4 (amended): two settlements of 1 credit with the same
request id "req1" against a balance of 10 debit twice and append two
transactions and two usage rows. -/
theorem settlement_not_idempotent_witness :
    (consume_credits 0 1 (some usageReq1)
        (consume_credits 0 1 (some usageReq1) ledger10).1).1.acct.balance
      = ledger10.acct.balance - 1 - 1 ∧
    (consume_credits 0 1 (some usageReq1)
        (consume_credits 0 1 (some usageReq1) ledger10).1).1.txs.length
      = ledger10.txs.length + 2 ∧
    (consume_credits 0 1 (some usageReq1)
        (consume_credits 0 1 (some usageReq1) ledger10).1).1.usages
      = ledger10.usages ++ [mkUsageRow 1 usageReq1, mkUsageRow 1 usageReq1] :=
  settlement_not_idempotent ledger10 0 1 usageReq1 (by decide)
    (by norm_num) (by norm_num [ledger10, acct10])

/-- Counterexample to C4 as stated: calling `consume_credits` twice with
the identical request id "req1" (amount 1, balance 10) leaves TWO usage
records and TWO transactions and a balance of 8, while the claim requires
exactly one of each with the second call debiting nothing (balance 9). -/
theorem settlement_double_debit_cex :
    (consume_credits 0 1 (some usageReq1)
        (consume_credits 0 1 (some usageReq1) ledger10).1).1.usages.length = 2 ∧
    (consume_credits 0 1 (some usageReq1)
        (consume_credits 0 1 (some usageReq1) ledger10).1).1.txs.length = 2 ∧
    (consume_credits 0 1 (some usageReq1)
        (consume_credits 0 1 (some usageReq1) ledger10).1).1.acct.balance = 8 ∧
    usageReq1.request_id = some "req1" ∧ (2 : Nat) ≠ 1 ∧ (8 : ℚ) ≠ 10 - 1 := by
  refine ⟨?_, ?_, ?_, rfl, by norm_num, by norm_num⟩ <;>
    norm_num [consume_credits, maybe_reset_daily, ledger10, acct10, oneDay,
      mkUsageRow, usageReq1]

/-- C5: at the pricing row `cfgUnit` (equal unit costs, one credit per 1k
tokens, valid per the schema CHECK) and one prompt plus one completion
token, the code returns 0.00 while the specified formula
ceil(weighted / 1000 x credits_per_1k x 100) / 100 gives 0.01: the
assignment of the credit amount to the `DECIMAL(10,2)` variable
`v_credits_required` rounds to the nearest cent before the final
`CEIL(x * 100) / 100`, defeating the "Round up to nearest cent" comment
in the source. -/
theorem calculate_credits_rounds_before_ceiling :
    providerConfigCheck cfgUnit ∧
    calculate_credits_required cfgUnit 1 1 = 0 ∧
    estimate_spec cfgUnit 1 1 = 1/100 := by
  refine ⟨by norm_num [providerConfigCheck, cfgUnit], ?_, ?_⟩
  · norm_num [calculate_credits_required, cfgUnit, pgRoundScale, pgRoundInt,
      ratioDenominator]
  · norm_num [estimate_spec, cfgUnit, ratioDenominator]
    rw [show ⌈(1:ℚ)/10⌉ = 1 from by rw [Int.ceil_eq_iff]; norm_num]
    norm_num

/-- C6 (amended): starting from a stored row (CHECK: used counter in
[0, 10]), `daily_free_credits_used` stays in [0, 10] across debits and
balance reads; both operations perform the shared lazy reset, which zeroes
the counter and advances the window start to the current time exactly when
the current time is STRICTLY more than one window-length past the window
start (the source condition is `daily_free_credits_reset_at <
NOW() - INTERVAL '1 day'`), and after a reset no further reset occurs
before another strict window-length has elapsed — at most once per
window. -/
theorem daily_free_window_invariant (L : Ledger) (now now2 : Int) (a : ℚ)
    (u : Option UsageData)
    (h0 : 0 ≤ L.acct.daily_free_credits_used)
    (h10 : L.acct.daily_free_credits_used ≤ 10) :
    (0 ≤ (consume_credits now a u L).1.acct.daily_free_credits_used ∧
      (consume_credits now a u L).1.acct.daily_free_credits_used ≤ 10) ∧
    (0 ≤ (get_user_credit_balance now L).1.acct.daily_free_credits_used ∧
      (get_user_credit_balance now L).1.acct.daily_free_credits_used ≤ 10) ∧
    ((get_user_credit_balance now L).1.acct = maybe_reset_daily now L.acct) ∧
    (L.acct.daily_free_credits_reset_at < now - oneDay →
      maybe_reset_daily now L.acct =
        { L.acct with
            daily_free_credits_used := 0
            daily_free_credits_reset_at := now }) ∧
    (¬ L.acct.daily_free_credits_reset_at < now - oneDay →
      maybe_reset_daily now L.acct = L.acct) ∧
    (L.acct.daily_free_credits_reset_at < now - oneDay → now2 ≤ now + oneDay →
      maybe_reset_daily now2 (maybe_reset_daily now L.acct) =
        maybe_reset_daily now L.acct) := by
  have hc := maybe_reset_daily_used_cases now L.acct
  refine ⟨consume_credits_used_bounds L now a u h0 h10, ?_, rfl, ?_, ?_, ?_⟩
  · simp only [get_user_credit_balance]
    omega
  · intro h; unfold maybe_reset_daily; rw [if_pos h]
  · intro h; exact maybe_reset_daily_of_not_due now L.acct h
  · intro h h2; exact maybe_reset_daily_at_most_once L.acct now now2 h h2

/-- Witness for C6 (amended): instantiated at `ledger5half` with a read
and a debit two window-lengths after the window start. -/
theorem daily_free_window_invariant_witness :
    (0 ≤ (consume_credits (2 * oneDay) 1 none
            ledger5half).1.acct.daily_free_credits_used ∧
      (consume_credits (2 * oneDay) 1 none
          ledger5half).1.acct.daily_free_credits_used ≤ 10) ∧
    (0 ≤ (get_user_credit_balance (2 * oneDay)
            ledger5half).1.acct.daily_free_credits_used ∧
      (get_user_credit_balance (2 * oneDay)
          ledger5half).1.acct.daily_free_credits_used ≤ 10) ∧
    ((get_user_credit_balance (2 * oneDay) ledger5half).1.acct =
      maybe_reset_daily (2 * oneDay) ledger5half.acct) ∧
    (ledger5half.acct.daily_free_credits_reset_at < 2 * oneDay - oneDay →
      maybe_reset_daily (2 * oneDay) ledger5half.acct =
        { ledger5half.acct with
            daily_free_credits_used := 0
            daily_free_credits_reset_at := 2 * oneDay }) ∧
    (¬ ledger5half.acct.daily_free_credits_reset_at < 2 * oneDay - oneDay →
      maybe_reset_daily (2 * oneDay) ledger5half.acct = ledger5half.acct) ∧
    (ledger5half.acct.daily_free_credits_reset_at < 2 * oneDay - oneDay →
      oneDay ≤ 2 * oneDay + oneDay →
      maybe_reset_daily oneDay (maybe_reset_daily (2 * oneDay) ledger5half.acct) =
        maybe_reset_daily (2 * oneDay) ledger5half.acct) :=
  daily_free_window_invariant ledger5half (2 * oneDay) oneDay 1 none
    (by decide) (by decide)

/-- Counterexample to C6 as stated: a balance read exactly one
window-length past the window start (time `oneDay`, window started at 0,
five free credits used) does NOT reset the counter — the claim's "at
least one window-length past" would require it to drop to 0, but the
source's strict `<` comparison leaves it at 5. -/
theorem daily_free_boundary_cex :
    (get_user_credit_balance oneDay ledger5half).1.acct.daily_free_credits_used
      = 5 ∧
    (get_user_credit_balance oneDay ledger5half).1.acct.daily_free_credits_reset_at
      = 0 ∧
    ledger5half.acct.daily_free_credits_reset_at + oneDay ≤ oneDay ∧
    (5 : Int) ≠ 0 := by
  decide

/-- C7: the rate-limit check of the design document's RateLimitService
returns allowed exactly when the hourly-window count is below the tier's
hourly limit and the daily limit is either unbounded ('unlimited') or the
daily-window count is below it; the SQL `check_rate_limit`, whose two
tiers (user: 100/h, ip: 10/h) carry no daily bound, agrees with that
formula at an unbounded daily limit. -/
theorem rate_limit_allowed_iff :
    (∀ (limits : TierLimits) (usage : WindowUsage),
      checkRateLimit limits usage = true ↔
        (usage.hourly < limits.hourly ∧
          (limits.daily = none ∨ ∃ d, limits.daily = some d ∧ usage.daily < d))) ∧
    (∀ (isUser : Bool) (c : Int),
      check_rate_limit isUser c =
        checkRateLimit { hourly := hourlyLimitFor isUser, daily := none }
          { hourly := c, daily := 0 }) := by
  constructor
  · intro limits usage
    cases h : limits.daily with
    | none => simp [checkRateLimit, h]
    | some d => simp [checkRateLimit, h]
  · intro isUser c
    simp only [check_rate_limit, checkRateLimit]
    split_ifs with h
    · simp [not_lt.mpr h]
    · simp [lt_of_not_ge h]

/-- C8 (amended): a grant of 50 with reference "ref1" to a fresh account
makes the subsequent balance read return 50, but `add_credits` performs
no de-duplication on the reference: a second grant with the same
reference adds the amount again, appending a second `purchase`
transaction carrying the same `stripe_payment_intent_id`. -/
theorem grant_no_dedup (L : Ledger) (a : ℚ) (ref : Option String) :
    (add_credits a ref (add_credits a ref L).1).1.acct.balance
      = L.acct.balance + a + a ∧
    (add_credits a ref (add_credits a ref L).1).1.txs
      = L.txs ++
        [{ transaction_type := TxType.purchase
           amount := a
           balance_after := L.acct.balance + a
           stripe_payment_intent_id := ref },
         { transaction_type := TxType.purchase
           amount := a
           balance_after := L.acct.balance + a + a
           stripe_payment_intent_id := ref }] ∧
    (get_user_credit_balance 0 (add_credits 50 (some "ref1") ledger0).1).2.balance
      = 50 := by
  refine ⟨rfl, ?_, ?_⟩
  · simp [add_credits]
  · norm_num [get_user_credit_balance, maybe_reset_daily, add_credits, ledger0,
      oneDay]

/-- Counterexample to C8 as stated: granting 50 with reference "ref1"
twice from the fresh account yields balance 100 and two transactions —
the duplicate is neither rejected nor a no-op, so the amount IS added
twice. -/
theorem grant_duplicate_reference_cex :
    (get_user_credit_balance 0 (add_credits 50 (some "ref1") ledger0).1).2.balance
      = 50 ∧
    (add_credits 50 (some "ref1")
        (add_credits 50 (some "ref1") ledger0).1).1.acct.balance = 100 ∧
    (add_credits 50 (some "ref1")
        (add_credits 50 (some "ref1") ledger0).1).1.txs.length = 2 ∧
    (100 : ℚ) ≠ 0 + 50 := by
  refine ⟨?_, ?_, rfl, by norm_num⟩ <;>
    norm_num [get_user_credit_balance, maybe_reset_daily, add_credits, ledger0,
      oneDay]

/-- C10: whenever the sum of a pricing row's input and output per-token
costs is strictly positive, the divisor of the ratio step of
`calculate_credits_required` is nonzero; and the schema CHECK alone
(each cost merely non-negative) does not guarantee this — a row with
both costs 0 passes the CHECK yet makes the divisor zero, so the
division-by-zero branch is unreachable only under the positivity
precondition. -/
theorem ratio_step_well_defined :
    (∀ cfg : ProviderConfig, providerConfigCheck cfg → 0 < ratioDenominator cfg →
      ratioDenominator cfg ≠ 0) ∧
    (∃ cfg : ProviderConfig, providerConfigCheck cfg ∧ ratioDenominator cfg = 0) := by
  constructor
  · intro cfg _ h
    exact ne_of_gt h
  · refine ⟨{ credits_per_1k_tokens := 1, input_cost_per_1m_tokens := 0,
              output_cost_per_1m_tokens := 0 }, ?_, ?_⟩
    · norm_num [providerConfigCheck]
    · norm_num [ratioDenominator]

/-- Witness for C10: the seeded claude-3-sonnet row has cost sum 18, so
its ratio divisor is nonzero. -/
theorem ratio_step_well_defined_witness :
    providerConfigCheck cfgClaudeSonnet ∧ ratioDenominator cfgClaudeSonnet ≠ 0 :=
  ⟨by norm_num [providerConfigCheck, cfgClaudeSonnet],
   ratio_step_well_defined.1 cfgClaudeSonnet
     (by norm_num [providerConfigCheck, cfgClaudeSonnet])
     (by norm_num [ratioDenominator, cfgClaudeSonnet])⟩
